import Mathlib

/-!
# mk_arcade_joystick_rpi: register access, sampling, event mapping, scheduler

A shallow embedding of `mk_arcade_joystick_rpi.c`.

* The register block behind the global pointer `gpio` is a map from word
  offsets to 32-bit words; every store keeps the low 32 bits. Word 13, the
  pin-level register, is read-only: a sample reads the same line levels in
  every slot.
* `int` values that hold pin numbers, pad types and error codes are `Int`;
  C division and remainder are `Int.tdiv` and `Int.tmod`, `>>` on an `int`
  is the arithmetic shift, `&` is `Int.land`.
* Calls into the kernel (input core, timer, memory) are recorded in traces;
  what the kernel answers is given by an explicit environment.
* Logging (`pr_err`, `pr_info`) and the `udelay` waits are not modelled.
-/

namespace MkArcade

/-! ## Constants -/

def MK_MAX_DEVICES : Nat := 2
def MK_MAX_BUTTONS : Nat := 13

def GPPUPPDN0 : Int := 57
def GPPUPPDN1 : Int := 58
def GPPUPPDN2 : Int := 59
def GPPUPPDN3 : Int := 60
def GPPUDCLK0 : Int := 38
def GPPUD : Int := 37

def GPIO_BASE_OFFSET : Nat := 0x00200000

/-- Values of `enum mk_type`. -/
def MK_NONE : Int := 0
def MK_ARCADE_GPIO_P1 : Int := 1
def MK_ARCADE_GPIO_P2 : Int := 2
def MK_ARCADE_GPIO_CUSTOM1 : Int := 3
def MK_ARCADE_GPIO_CUSTOM2 : Int := 4
def MK_MAX : Int := 5

/-- Error numbers of the kernel headers (`errno-base.h`), which the driver
negates when it returns them. -/
def ENOMEM : Int := 12
def EBUSY : Int := 16
def ENODEV : Int := 19
def EINVAL : Int := 22

/-! ## The register block -/

/-- Register block: the word at each word offset from the pointer `gpio`. -/
abbrev Regs := Int → Nat

/-- Store of a 32-bit word at `*(gpio + off)`. -/
def store (r : Regs) (off : Int) (v : Nat) : Regs :=
  fun k => if k = off then v % 2 ^ 32 else r k

/-- Left shift `x << s` as a 32-bit pattern. A count outside 0..31 is
undefined in C; the model then yields 0, and no statement below depends
on that value. -/
def shl32 (x : Nat) (s : Int) : Nat :=
  if 0 ≤ s ∧ s < 32 then (x <<< s.toNat) % 2 ^ 32 else 0

/-- Bitwise complement `~x` of a 32-bit pattern. -/
def not32 (x : Nat) : Nat := 0xFFFFFFFF ^^^ (x % 2 ^ 32)

/-- Source line 64: `*(gpio+((g)/10)) &= ~(7<<(((g)%10)*3))`. -/
def INP_GPIO (g : Int) (r : Regs) : Regs :=
  store r (g.tdiv 10) (r (g.tdiv 10) &&& not32 (shl32 7 (g.tmod 10 * 3)))

/-- Source line 66: `*(gpio + 13) &= (1<<(g))`. The value of the expression
is word 13 masked with the bit of `g`. `gpio` is a `volatile` pointer into
the device window mapped by `ioremap`, and word 13 is the pin-level
register, which is read-only: the device drops the word the compound
assignment writes back, and the next read returns the line levels again.
The block is therefore returned as it was. -/
def GPIO_READ (g : Int) (r : Regs) : Nat × Regs :=
  (( r 13 &&& shl32 1 g) % 2 ^ 32, r)

/-- The function `setGpioPullUp`, with the global `is_2711` as an argument. -/
def setGpioPullUp (is_2711 : Bool) (gpioPin : Int) (r : Regs) : Regs :=
  if is_2711 then
    let pullreg : Int := GPPUPPDN0 + (gpioPin >>> 4)
    let pullshift : Int := (Int.land gpioPin 0xf) * 2
    let pull : Nat := 1
    let pullbits : Nat := r pullreg
    let pullbits : Nat := pullbits &&& not32 (shl32 3 pullshift)
    let pullbits : Nat := pullbits ||| shl32 pull pullshift
    store r pullreg pullbits
  else
    let clkreg : Int := GPPUDCLK0 + (gpioPin >>> 5)
    let clkbit : Nat := shl32 1 (Int.land gpioPin 0x1f)
    let r1 := store r GPPUD 0x02
    let r2 := store r1 clkreg clkbit
    let r3 := store r2 GPPUD 0
    store r3 clkreg 0

/-- The function `setGpioAsInput`. -/
def setGpioAsInput (gpioNum : Int) (r : Regs) : Regs :=
  INP_GPIO gpioNum r

/-! ## Board detection -/

/-- The function `get_hwbase`, with the identifier register as an argument. -/
def get_hwbase (reg : Nat) : Nat :=
  let part := (reg >>> 4) &&& 0xFFF
  if part = 0xB76 then 0x20000000
  else if part = 0xC07 then 0x3F000000
  else if part = 0xD03 then 0x3F000000
  else if part = 0xD08 then 0xFE000000
  else 0x00000000

/-! ## Pads and the controller -/

/-- Pad record `struct mk_pad`: `dev` is the input device handle (`none`
is the null pointer). The name string `phys` is left out. -/
structure mk_pad where
  dev : Option Nat
  type : Int
  gpio_maps : List Int
deriving DecidableEq, Repr

/-- Controller record `struct mk`; `timer_pending` says whether the timer
is armed. The mutex is left out: calls are run one after the other. The
counter `used` is a C `int`: `mk_open` and `mk_close` wrap it to 32 bits. -/
structure mk where
  make ::
  pads : List mk_pad
  timer_pending : Bool
  used : Int
  total_pads : Int
deriving DecidableEq, Repr

/-- A zeroed pad, as `kzalloc` leaves it. -/
def mk_pad_zero : mk_pad :=
  { dev := none, type := 0, gpio_maps := List.replicate MK_MAX_BUTTONS 0 }

/-- A zeroed controller, as `kzalloc` leaves it. -/
def mk_zero : mk :=
  { pads := List.replicate MK_MAX_DEVICES mk_pad_zero,
    timer_pending := false, used := 0, total_pads := 0 }

def mk_arcade_gpio_maps_p1 : List Int :=
  [4, 17, 27, 22, 10, 9, 25, 24, 23, 18, 15, 14, 2]

def mk_arcade_gpio_maps_p2 : List Int :=
  [11, 5, 6, 13, 19, 26, 21, 20, 16, 12, 7, 8, 3]

/-- Axis identifiers of the input core used by the driver. -/
inductive Axis
  | ABS_X
  | ABS_Y
deriving DecidableEq, Repr

/-- Button identifiers of the input core used by the driver. -/
inductive Btn
  | BTN_START
  | BTN_SELECT
  | BTN_A
  | BTN_B
  | BTN_TR
  | BTN_Y
  | BTN_X
  | BTN_TL
  | BTN_MODE
deriving DecidableEq, Repr

def mk_arcade_gpio_btn : List Btn :=
  [Btn.BTN_START, Btn.BTN_SELECT, Btn.BTN_A, Btn.BTN_B, Btn.BTN_TR,
   Btn.BTN_Y, Btn.BTN_X, Btn.BTN_TL, Btn.BTN_MODE]

/-- A call into the input core made while reporting; `dev` is the device
pointer passed (`none` is the null pointer). -/
inductive InputCall
  | input_report_abs (dev : Option Nat) (axis : Axis) (value : Int)
  | input_report_key (dev : Option Nat) (code : Btn) (value : Nat)
  | input_sync (dev : Option Nat)
deriving DecidableEq, Repr

/-! ## Sampling and reporting -/

/-- Body of the loop of `mk_gpio_read_packet` for slot `i`. -/
def mk_gpio_read_packet_step (pad : mk_pad) (i : Nat) (s : List Nat × Regs) :
    List Nat × Regs :=
  if pad.gpio_maps.getD i 0 ≠ -1 then
    let rd := GPIO_READ (pad.gpio_maps.getD i 0) s.2
    if rd.1 = 0 then (s.1.set i 1, rd.2) else (s.1.set i 0, rd.2)
  else (s.1.set i 0, s.2)

/-- The function `mk_gpio_read_packet`: fills the 13 entries of `data`
for `i = 0, ..., 12` in this order; returns the buffer and the register
block after the reads. -/
def mk_gpio_read_packet (pad : mk_pad) (data : List Nat) (r : Regs) :
    List Nat × Regs :=
  (List.range MK_MAX_BUTTONS).foldl
    (fun s i => mk_gpio_read_packet_step pad i s) (data, r)

/-- C logical negation `!x` of an `unsigned char`, as an `int`. -/
def lnot (x : Nat) : Int := if x = 0 then 1 else 0

/-- The function `mk_input_report`: the calls it makes, in order. -/
def mk_input_report (pad : mk_pad) (data : List Nat) : List InputCall :=
  [InputCall.input_report_abs pad.dev Axis.ABS_Y
      (lnot (data.getD 0 0) - lnot (data.getD 1 0)),
   InputCall.input_report_abs pad.dev Axis.ABS_X
      (lnot (data.getD 2 0) - lnot (data.getD 3 0))]
  ++ ((List.range MK_MAX_BUTTONS).drop 4).map
      (fun j => InputCall.input_report_key pad.dev
        (mk_arcade_gpio_btn.getD (j - 4) Btn.BTN_START) (data.getD j 0))
  ++ [InputCall.input_sync pad.dev]

/-- Body of the loop of `mk_process_packet` for pad slot `i`; `data` is the
local buffer, which keeps its contents from one pad to the next. -/
def mk_process_packet_step (m : mk) (i : Nat)
    (s : List InputCall × List Nat × Regs) : List InputCall × List Nat × Regs :=
  let pad := m.pads.getD i mk_pad_zero
  let rd := mk_gpio_read_packet pad s.2.1 s.2.2
  (s.1 ++ mk_input_report pad rd.1, rd.1, rd.2)

/-- The function `mk_process_packet`: one tick over the pad slots
`0, ..., total_pads - 1`; returns the calls into the input core and the
register block after the tick. The local buffer `data` starts out
unspecified in C and every entry is written before it is read; the model
starts it at zero. A slot index past the array is read as a zeroed pad. -/
def mk_process_packet (m : mk) (r : Regs) : List InputCall × Regs :=
  let out := (List.range m.total_pads.toNat).foldl
    (fun s i => mk_process_packet_step m i s)
    ([], List.replicate MK_MAX_BUTTONS 0, r)
  (out.1, out.2.2)

/-! ## Scheduler -/

/-- The value a 32-bit C `int` holds after the result `x` of an increment
or decrement is stored in it: past INT_MAX = 2147483647 the counter wraps
to INT_MIN (two's complement, as the kernel is built), and back. -/
def wrap_int (x : Int) : Int := (x + 2147483648) % 4294967296 - 2147483648

/-- Timer calls. The expiry `jiffies + HZ/100` is not modelled. -/
inductive TimerCall
  | mod_timer
  | del_timer_sync
deriving DecidableEq, Repr

/-- The function `mk_timer`: one tick, then the timer is armed again. -/
def mk_timer (m : mk) (r : Regs) : List InputCall × Regs × mk × List TimerCall :=
  let out := mk_process_packet m r
  (out.1, out.2, { m with timer_pending := true }, [TimerCall.mod_timer])

/-- The function `mk_open`; `lock_err` is what `mutex_lock_interruptible`
returns. Result: return value, controller, timer calls made. -/
def mk_open (lock_err : Int) (m : mk) : Int × mk × List TimerCall :=
  if lock_err ≠ 0 then (lock_err, m, [])
  else if m.used = 0 then
    (0, { m with used := wrap_int (m.used + 1), timer_pending := true },
      [TimerCall.mod_timer])
  else (0, { m with used := wrap_int (m.used + 1) }, [])

/-- The function `mk_close`. Result: controller, timer calls made. -/
def mk_close (m : mk) : mk × List TimerCall :=
  if wrap_int (m.used - 1) = 0 then
    ({ m with used := wrap_int (m.used - 1), timer_pending := false },
      [TimerCall.del_timer_sync])
  else ({ m with used := wrap_int (m.used - 1) }, [])

/-- A call made by a client of the scheduler. -/
inductive SchedCall
  | open_ok
  | close
deriving DecidableEq, Repr

/-- Runs a sequence of successful opens and closes; the log holds, for
each call in order, the timer calls that call made and the value of `used`
when it returned. -/
def run_sched : List SchedCall → mk → mk × List (List TimerCall × Int)
  | [], m => (m, [])
  | SchedCall.open_ok :: cs, m =>
    let o := mk_open 0 m
    let rest := run_sched cs o.2.1
    (rest.1, (o.2.2, o.2.1.used) :: rest.2)
  | SchedCall.close :: cs, m =>
    let c := mk_close m
    let rest := run_sched cs c.1
    (rest.1, (c.2, c.1.used) :: rest.2)

/-! ## Initialisation -/

/-- Module parameter `map`: `struct mk_config`. -/
structure mk_config where
  args : List Int
  nargs : Nat
deriving DecidableEq, Repr

/-- Module parameters `gpio` and `gpio2`: `struct gpio_config`. -/
structure gpio_config where
  mk_arcade_gpio_maps_custom : List Int
  nargs : Nat
deriving DecidableEq, Repr

/-- A call recorded during initialisation: calls into the kernel, and the
two pin configuration functions with the pin they are given. -/
inductive Call
  | ioremap (phys : Nat) (size : Nat)
  | kzalloc
  | kfree
  | input_allocate_device
  | input_register_device (dev : Nat)
  | input_unregister_device (dev : Nat)
  | input_free_device (dev : Nat)
  | setGpioAsInput (g : Int)
  | setGpioPullUp (g : Int)
deriving DecidableEq, Repr

/-- What the kernel answers during initialisation. `midr` is the value the
identifier register holds; `ioremap phys` is the block mapped at `phys`
(`none`: the mapping fails); `kzalloc_ok` says whether the controller can
be allocated; `input_allocate_device idx` is the device handle handed out
while pad slot `idx` is set up (`none`: out of memory);
`input_register_device idx` is the result of registering that device. -/
structure Env where
  midr : Nat
  ioremap : Nat → Option Regs
  kzalloc_ok : Bool
  input_allocate_device : Nat → Option Nat
  input_register_device : Nat → Int

/-- The globals `gpio` (through the block it points to) and `is_2711`,
with the calls made so far. -/
structure World where
  gpio : Regs
  is_2711 : Bool
  calls : List Call

/-- One round of the pin loop of `mk_setup_pad` (source lines 403 to 408). -/
def mk_setup_pad_pin (pad : mk_pad) (i : Nat) (w : World) : World :=
  if pad.gpio_maps.getD i 0 ≠ -1 then
    let g := pad.gpio_maps.getD i 0
    { w with
      gpio := setGpioPullUp w.is_2711 g (setGpioAsInput g w.gpio),
      calls := w.calls ++ [Call.setGpioAsInput g, Call.setGpioPullUp g] }
  else w

/-- The table copied into `pad->gpio_maps` by the switch of `mk_setup_pad`
(source lines 387 to 400); any other type leaves the array as it is. -/
def mk_setup_pad_maps (gpio_cfg gpio_cfg2 : gpio_config) (pad_type : Int)
    (old : List Int) : List Int :=
  if pad_type = MK_ARCADE_GPIO_P1 then mk_arcade_gpio_maps_p1.take MK_MAX_BUTTONS
  else if pad_type = MK_ARCADE_GPIO_P2 then mk_arcade_gpio_maps_p2.take MK_MAX_BUTTONS
  else if pad_type = MK_ARCADE_GPIO_CUSTOM1 then
    gpio_cfg.mk_arcade_gpio_maps_custom.take MK_MAX_BUTTONS
  else if pad_type = MK_ARCADE_GPIO_CUSTOM2 then
    gpio_cfg2.mk_arcade_gpio_maps_custom.take MK_MAX_BUTTONS
  else old

/-- The function `mk_setup_pad`. Result: return value, controller, globals.
The fields of the input device that only describe it (name, ids, event
bits, axis ranges) are left out. -/
def mk_setup_pad (env : Env) (gpio_cfg gpio_cfg2 : gpio_config)
    (m : mk) (w : World) (idx : Nat) (pad_type_arg : Int) : Int × mk × World :=
  let pad := m.pads.getD idx mk_pad_zero
  let pad_type := pad_type_arg
  if pad_type < 1 ∨ pad_type ≥ MK_MAX then (-EINVAL, m, w)
  else if pad_type = MK_ARCADE_GPIO_CUSTOM1 ∧ gpio_cfg.nargs < 1 then (-EINVAL, m, w)
  else if pad_type = MK_ARCADE_GPIO_CUSTOM1 ∧ gpio_cfg.nargs ≠ MK_MAX_BUTTONS then
    (-EINVAL, m, w)
  else if pad_type = MK_ARCADE_GPIO_CUSTOM2 ∧ gpio_cfg2.nargs < 1 then (-EINVAL, m, w)
  else if pad_type = MK_ARCADE_GPIO_CUSTOM2 ∧ gpio_cfg2.nargs ≠ MK_MAX_BUTTONS then
    (-EINVAL, m, w)
  else
    let w1 := { w with calls := w.calls ++ [Call.input_allocate_device] }
    match env.input_allocate_device idx with
    | none => (-ENOMEM, { m with pads := m.pads.set idx { pad with dev := none } }, w1)
    | some d =>
      let pad1 : mk_pad :=
        { dev := some d, type := pad_type,
          gpio_maps := mk_setup_pad_maps gpio_cfg gpio_cfg2 pad_type pad.gpio_maps }
      let m1 : mk := { m with pads := m.pads.set idx pad1, total_pads := m.total_pads + 1 }
      let w2 := (List.range MK_MAX_BUTTONS).foldl (fun x i => mk_setup_pad_pin pad1 i x) w1
      let err := env.input_register_device idx
      let w3 := { w2 with calls := w2.calls ++ [Call.input_register_device d] }
      if err ≠ 0 then
        (err, { m1 with pads := m1.pads.set idx { pad1 with dev := none } },
          { w3 with calls := w3.calls ++ [Call.input_free_device d] })
      else (0, m1, w3)

/-- State of the loop of `mk_probe`: the error that ended it (with the
value `i` had), the counter `count`, the controller and the globals. -/
structure ProbeLoop where
  err : Option (Nat × Int)
  count : Nat
  m : mk
  w : World

/-- The loop of `mk_probe` (source lines 445 to 454) over the slot indices
still to visit. -/
def mk_probe_loop (env : Env) (gpio_cfg gpio_cfg2 : gpio_config) (pads : List Int) :
    List Nat → ProbeLoop → ProbeLoop
  | [], s => s
  | i :: rest, s =>
    if pads.getD i 0 = 0 then mk_probe_loop env gpio_cfg gpio_cfg2 pads rest s
    else
      let r := mk_setup_pad env gpio_cfg gpio_cfg2 s.m s.w i (pads.getD i 0)
      if r.1 ≠ 0 then { err := some (i, r.1), count := s.count, m := r.2.1, w := r.2.2 }
      else mk_probe_loop env gpio_cfg gpio_cfg2 pads rest
        { err := none, count := s.count + 1, m := r.2.1, w := r.2.2 }

/-- The unwinding at `err_unreg_devs`: slots `i - 1` down to 0. -/
def mk_probe_unreg (m : mk) (i : Nat) (calls : List Call) : List Call :=
  (List.range i).reverse.foldl
    (fun cs j => match (m.pads.getD j mk_pad_zero).dev with
      | some d => cs ++ [Call.input_unregister_device d]
      | none => cs) calls

/-- The function `mk_probe`. Result: the controller, or the error code
carried by `ERR_PTR`; and the globals. The loop visits the indices `i`
with `i < n_pads` and `i < MK_MAX_DEVICES`, in increasing order. -/
def mk_probe (env : Env) (gpio_cfg gpio_cfg2 : gpio_config) (pads : List Int)
    (n_pads : Nat) (w : World) : Except Int mk × World :=
  let w0 := { w with calls := w.calls ++ [Call.kzalloc] }
  if env.kzalloc_ok = false then (Except.error (-ENOMEM), w0)
  else
    let s := mk_probe_loop env gpio_cfg gpio_cfg2 pads
      ((List.range MK_MAX_DEVICES).filter (fun i => i < n_pads))
      { err := none, count := 0, m := mk_zero, w := w0 }
    match s.err with
    | some (i, err) =>
      (Except.error err,
        { s.w with calls := mk_probe_unreg s.m i s.w.calls ++ [Call.kfree] })
    | none =>
      if s.count = 0 then
        (Except.error (-EINVAL), { s.w with calls := s.w.calls ++ [Call.kfree] })
      else (Except.ok s.m, s.w)

/-- Result of `mk_init`: return value, the calls made in order, the
register block behind `gpio` (`none`: the pointer is null), the global
`is_2711`, and `mk_base` when it holds a controller. -/
structure InitOutcome where
  ret : Int
  calls : List Call
  gpio : Option Regs
  is_2711 : Bool
  mk_base : Option mk

/-- The function `mk_init`. -/
def mk_init (env : Env) (mk_cfg : mk_config) (gpio_cfg gpio_cfg2 : gpio_config) :
    InitOutcome :=
  let hwbase := get_hwbase env.midr
  let phys := (GPIO_BASE_OFFSET + hwbase) % 2 ^ 32
  match env.ioremap phys with
  | none =>
    { ret := -EBUSY, calls := [Call.ioremap phys 0xB0], gpio := none,
      is_2711 := false, mk_base := none }
  | some regs =>
    let is_2711 := decide (regs GPPUPPDN3 ≠ 0x6770696f)
    if mk_cfg.nargs < 1 then
      { ret := -EINVAL, calls := [Call.ioremap phys 0xB0], gpio := some regs,
        is_2711 := is_2711, mk_base := none }
    else
      let p := mk_probe env gpio_cfg gpio_cfg2 mk_cfg.args mk_cfg.nargs
        { gpio := regs, is_2711 := is_2711, calls := [Call.ioremap phys 0xB0] }
      match p.1 with
      | Except.error _ =>
        { ret := -ENODEV, calls := p.2.calls, gpio := some p.2.gpio,
          is_2711 := is_2711, mk_base := none }
      | Except.ok m =>
        { ret := 0, calls := p.2.calls, gpio := some p.2.gpio,
          is_2711 := is_2711, mk_base := some m }

/-! ## Observations on traces and concrete inputs -/

/-- Tells whether a call into the input core is a button report. -/
def InputCall.isKey : InputCall → Bool
  | InputCall.input_report_key _ _ _ => true
  | _ => false

/-- The device pointer a call into the input core is given. -/
def InputCall.device : InputCall → Option Nat
  | InputCall.input_report_abs d _ _ => d
  | InputCall.input_report_key d _ _ => d
  | InputCall.input_sync d => d

/-- The devices registered with the input core by a trace, in order. -/
def registered_devices : List Call → List Nat
  | [] => []
  | Call.input_register_device d :: cs => d :: registered_devices cs
  | _ :: cs => registered_devices cs

/-- A pad with the built-in table of player 1 and device handle 0. -/
def pad_p1 : mk_pad :=
  { dev := some 0, type := MK_ARCADE_GPIO_P1, gpio_maps := mk_arcade_gpio_maps_p1 }

/-- A register block whose level register (word 13) reads `L`; the other
words are zero. -/
def regs_level (L : Nat) : Regs := fun k => if k = 13 then L else 0

/-- An environment in which every kernel call succeeds: the identifier
register holds `midr`, every mapping yields the block `regs`, and the
device handed out for pad slot `idx` is `idx + 10`. -/
def env_ok (midr : Nat) (regs : Regs) : Env :=
  { midr := midr, ioremap := fun _ => some regs, kzalloc_ok := true,
    input_allocate_device := fun idx => some (idx + 10),
    input_register_device := fun _ => 0 }

/-- A custom pin parameter that was not given. -/
def gpio_cfg_absent : gpio_config :=
  { mk_arcade_gpio_maps_custom := List.replicate MK_MAX_BUTTONS 0, nargs := 0 }

/-- The parameter `map=1`: one pad, built-in table of player 1. -/
def mk_cfg_p1 : mk_config := { args := [MK_ARCADE_GPIO_P1, 0], nargs := 1 }

/-- Globals before any pad is set up: every word of the block reads
`word`, no call made yet. -/
def world_start (word : Nat) (is_2711 : Bool) : World :=
  { gpio := fun _ => word, is_2711 := is_2711, calls := [] }

/-- A custom pin parameter with `n` entries counted and the array `pins`. -/
def gpio_cfg_of (pins : List Int) (n : Nat) : gpio_config :=
  { mk_arcade_gpio_maps_custom := pins, nargs := n }

/-- What the pin loop of `mk_setup_pad` does with one array entry `g`. -/
def pin_cfg (g : Int) (w : World) : World :=
  if g ≠ -1 then
    { w with
      gpio := setGpioPullUp w.is_2711 g (setGpioAsInput g w.gpio),
      calls := w.calls ++ [Call.setGpioAsInput g, Call.setGpioPullUp g] }
  else w

/-- A custom pin list of 13 entries: 100 in the first slot, the other
slots unused. -/
def pins_with_100 : List Int := [100, -1, -1, -1, -1, -1, -1, -1, -1, -1, -1, -1, -1]

/-- A custom pin list of 13 entries: pin 5 in the first slot, pin 6 in the
third, the other slots unused. -/
def pins_5_6 : List Int := [5, -1, 6, -1, -1, -1, -1, -1, -1, -1, -1, -1, -1]

/-- The controller `mk_probe` builds for `map=1` when every kernel call
succeeds: slot 0 holds the pad of player 1 with device 10. -/
def mk_one_p1 : mk :=
  { pads := [{ dev := some 10, type := MK_ARCADE_GPIO_P1,
               gpio_maps := mk_arcade_gpio_maps_p1 }, mk_pad_zero],
    timer_pending := false, used := 0, total_pads := 1 }

/-- The controller `mk_probe` builds for `map=0,1` when every kernel call
succeeds: slot 0 is still zeroed, slot 1 holds the pad of player 1 with
device 11, and `total_pads` is 1. -/
def mk_none_p1 : mk :=
  { pads := [mk_pad_zero, { dev := some 11, type := MK_ARCADE_GPIO_P1,
                            gpio_maps := mk_arcade_gpio_maps_p1 }],
    timer_pending := false, used := 0, total_pads := 1 }

/-! ## Bit-level lemmas -/

theorem store_same (r : Regs) (off : Int) (v : Nat) : store r off v off = v % 2 ^ 32 := by
  simp [store]

theorem store_other (r : Regs) (off k : Int) (v : Nat) (h : k ≠ off) :
    store r off v k = r k := by
  simp [store, h]

theorem testBit_not32 (x i : Nat) :
    (not32 x).testBit i = (decide (i < 32) && !x.testBit i) := by
  unfold not32
  rw [Nat.testBit_xor, show (0xFFFFFFFF : Nat) = 2 ^ 32 - 1 from rfl,
    Nat.testBit_two_pow_sub_one, Nat.testBit_mod_two_pow]
  by_cases h : i < 32 <;> simp [h]

theorem testBit_shl32 (x s i : Nat) (hs : s < 32) :
    (shl32 x (s : Int)).testBit i
      = (decide (i < 32) && (decide (s ≤ i) && x.testBit (i - s))) := by
  unfold shl32
  have h1 : (0 : Int) ≤ (s : Int) ∧ (s : Int) < 32 := by omega
  rw [if_pos h1, Int.toNat_ofNat, Nat.testBit_mod_two_pow, Nat.testBit_shiftLeft]

theorem testBit_one_nat (j : Nat) : Nat.testBit 1 j = decide (j = 0) := by
  rw [show (1 : Nat) = 2 ^ 0 from rfl, Nat.testBit_two_pow]
  by_cases h : j = 0 <;> simp [h, eq_comm]

theorem testBit_three_nat (j : Nat) : Nat.testBit 3 j = decide (j < 2) := by
  rw [show (3 : Nat) = 2 ^ 2 - 1 from rfl, Nat.testBit_two_pow_sub_one]

theorem testBit_seven_nat (j : Nat) : Nat.testBit 7 j = decide (j < 3) := by
  rw [show (7 : Nat) = 2 ^ 3 - 1 from rfl, Nat.testBit_two_pow_sub_one]

theorem setGpioAsInput_nat (p : Nat) (r : Regs) :
    setGpioAsInput (p : Int) r
      = store r ((p / 10 : Nat) : Int)
          (r ((p / 10 : Nat) : Int) &&& not32 (shl32 7 ((p % 10 * 3 : Nat) : Int))) := by
  have h1 : (p : Int).tdiv 10 = ((p / 10 : Nat) : Int) := by
    rw [Int.tdiv_eq_ediv (by omega) (by omega)]; omega
  have h2 : (p : Int).tmod 10 * 3 = ((p % 10 * 3 : Nat) : Int) := by
    rw [Int.tmod_eq_emod (by omega) (by omega)]; omega
  unfold setGpioAsInput INP_GPIO
  rw [h1, h2]

theorem setGpioPullUp_2711_nat (p : Nat) (r : Regs) :
    setGpioPullUp true (p : Int) r
      = store r (57 + ((p / 16 : Nat) : Int))
          ((r (57 + ((p / 16 : Nat) : Int)) &&& not32 (shl32 3 ((p % 16 * 2 : Nat) : Int)))
            ||| shl32 1 ((p % 16 * 2 : Nat) : Int)) := by
  have h1 : (p : Int) >>> 4 = ((p / 16 : Nat) : Int) := by
    show ((p >>> 4 : Nat) : Int) = _
    rw [Nat.shiftRight_eq_div_pow]
  have h2 : Int.land (p : Int) 0xf * 2 = ((p % 16 * 2 : Nat) : Int) := by
    show ((p &&& 0xf : Nat) : Int) * 2 = _
    rw [show (0xf : Nat) = 2 ^ 4 - 1 from rfl, Nat.and_pow_two_sub_one_eq_mod]
    push_cast; rfl
  simp only [setGpioPullUp, if_true, h1, h2, GPPUPPDN0]

/-- Register block after `setGpioAsInput p` then `setGpioPullUp p` on a
Bcm2711 board. -/
theorem config_2711_apply (p : Nat) (hp : p ≤ 57) (r : Regs) (k : Int) :
    setGpioPullUp true (p : Int) (setGpioAsInput (p : Int) r) k
      = if k = 57 + ((p / 16 : Nat) : Int) then
          ((r k &&& not32 (shl32 3 ((p % 16 * 2 : Nat) : Int)))
            ||| shl32 1 ((p % 16 * 2 : Nat) : Int)) % 2 ^ 32
        else if k = ((p / 10 : Nat) : Int) then
          (r k &&& not32 (shl32 7 ((p % 10 * 3 : Nat) : Int))) % 2 ^ 32
        else r k := by
  rw [setGpioPullUp_2711_nat, setGpioAsInput_nat]
  have hne : (57 : Int) + ((p / 16 : Nat) : Int) ≠ ((p / 10 : Nat) : Int) := by omega
  by_cases h1 : k = 57 + ((p / 16 : Nat) : Int)
  · subst h1
    rw [if_pos rfl, store_same, store_other _ _ _ _ hne]
  · rw [if_neg h1, store_other _ _ _ _ h1]
    by_cases h2 : k = ((p / 10 : Nat) : Int)
    · subst h2
      rw [if_pos rfl, store_same]
    · rw [if_neg h2, store_other _ _ _ _ h2]

/-- Bits of the register block after `setGpioAsInput p` then
`setGpioPullUp p` on a Bcm2711 board, for the low 32 bits of each word. -/
theorem config_2711_testBit (p : Nat) (hp : p ≤ 57) (r : Regs) (k : Int) (b : Nat)
    (hb : b < 32) :
    (setGpioPullUp true (p : Int) (setGpioAsInput (p : Int) r) k).testBit b
      = if k = 57 + ((p / 16 : Nat) : Int) then
          (if b = p % 16 * 2 then true
           else if b = p % 16 * 2 + 1 then false else (r k).testBit b)
        else if k = ((p / 10 : Nat) : Int) then
          (if p % 10 * 3 ≤ b ∧ b ≤ p % 10 * 3 + 2 then false else (r k).testBit b)
        else (r k).testBit b := by
  rw [config_2711_apply p hp r k]
  have hs1 : p % 16 * 2 < 32 := by omega
  have hs2 : p % 10 * 3 < 32 := by omega
  split_ifs with h1 h2 h3 h4 h5 <;>
    simp only [Nat.testBit_mod_two_pow, Nat.testBit_or, Nat.testBit_and, testBit_not32,
      testBit_shl32 _ _ _ hs1, testBit_shl32 _ _ _ hs2, hb, decide_True, Bool.true_and,
      testBit_one_nat, testBit_three_nat, testBit_seven_nat]
  all_goals (cases (r k).testBit b <;> simp <;> omega)


/-- Configuring a pin a second time on a Bcm2711 board changes nothing. -/
theorem config_2711_twice (p : Nat) (hp : p ≤ 57) (r : Regs) :
    setGpioPullUp true (p : Int) (setGpioAsInput (p : Int)
        (setGpioPullUp true (p : Int) (setGpioAsInput (p : Int) r)))
      = setGpioPullUp true (p : Int) (setGpioAsInput (p : Int) r) := by
  funext k
  have hs1 : p % 16 * 2 < 32 := by omega
  have hs2 : p % 10 * 3 < 32 := by omega
  rw [config_2711_apply p hp _ k, config_2711_apply p hp r k]
  split_ifs with h1 h2
  · apply Nat.eq_of_testBit_eq
    intro i
    simp only [Nat.testBit_mod_two_pow, Nat.testBit_or, Nat.testBit_and, testBit_not32,
      testBit_shl32 _ _ _ hs1]
    generalize decide (i < 32) = a
    generalize decide (p % 16 * 2 ≤ i) = c
    generalize Nat.testBit 3 (i - p % 16 * 2) = d
    generalize Nat.testBit 1 (i - p % 16 * 2) = e
    generalize (r k).testBit i = f
    cases a <;> cases c <;> cases d <;> cases e <;> cases f <;> rfl
  · apply Nat.eq_of_testBit_eq
    intro i
    simp only [Nat.testBit_mod_two_pow, Nat.testBit_or, Nat.testBit_and, testBit_not32,
      testBit_shl32 _ _ _ hs2]
    generalize decide (i < 32) = a
    generalize decide (p % 10 * 3 ≤ i) = c
    generalize Nat.testBit 7 (i - p % 10 * 3) = d
    generalize (r k).testBit i = f
    cases a <;> cases c <;> cases d <;> cases f <;> rfl
  · rfl

/-! ## Claim C10 -/

/-- C10. On a Bcm2711 board, for every pin `p` in 0..57 and every register
block `r`, `setGpioAsInput p` followed by `setGpioPullUp p` leaves the
three function-select bits `3*(p mod 10) .. 3*(p mod 10)+2` of word
`p div 10` at 000, the two pull bits `2*(p & 0xF)`, `2*(p & 0xF)+1` of word
`57 + (p >> 4)` at 01, every other bit of the 32 bits of every word as it
was (and every other word as it was), and doing both a second time gives
the same block. -/
theorem setGpioAsInput_setGpioPullUp_2711 (p : Nat) (hp : p ≤ 57) (r : Regs) :
    (∀ b : Nat, 3 * (p % 10) ≤ b → b ≤ 3 * (p % 10) + 2 →
        (setGpioPullUp true (p : Int) (setGpioAsInput (p : Int) r)
          ((p / 10 : Nat) : Int)).testBit b = false)
    ∧ (setGpioPullUp true (p : Int) (setGpioAsInput (p : Int) r)
          ((57 : Int) + ((p >>> 4 : Nat) : Int))).testBit (2 * (p &&& 0xF)) = true
    ∧ (setGpioPullUp true (p : Int) (setGpioAsInput (p : Int) r)
          ((57 : Int) + ((p >>> 4 : Nat) : Int))).testBit (2 * (p &&& 0xF) + 1) = false
    ∧ (∀ (k : Int) (b : Nat), b < 32 →
        ¬ (k = ((p / 10 : Nat) : Int) ∧ 3 * (p % 10) ≤ b ∧ b ≤ 3 * (p % 10) + 2) →
        ¬ (k = (57 : Int) + ((p >>> 4 : Nat) : Int)
            ∧ 2 * (p &&& 0xF) ≤ b ∧ b ≤ 2 * (p &&& 0xF) + 1) →
        (setGpioPullUp true (p : Int) (setGpioAsInput (p : Int) r) k).testBit b
          = (r k).testBit b)
    ∧ (∀ k : Int, k ≠ ((p / 10 : Nat) : Int) → k ≠ (57 : Int) + ((p >>> 4 : Nat) : Int) →
        setGpioPullUp true (p : Int) (setGpioAsInput (p : Int) r) k = r k)
    ∧ setGpioPullUp true (p : Int) (setGpioAsInput (p : Int)
          (setGpioPullUp true (p : Int) (setGpioAsInput (p : Int) r)))
        = setGpioPullUp true (p : Int) (setGpioAsInput (p : Int) r) := by
  have e1 : p >>> 4 = p / 16 := by rw [Nat.shiftRight_eq_div_pow]
  have e2 : p &&& 0xF = p % 16 := by
    rw [show (0xF : Nat) = 2 ^ 4 - 1 from rfl, Nat.and_pow_two_sub_one_eq_mod]
  have hne : ((p / 10 : Nat) : Int) ≠ 57 + ((p / 16 : Nat) : Int) := by omega
  rw [e1, e2]
  refine ⟨?_, ?_, ?_, ?_, ?_, config_2711_twice p hp r⟩
  · intro b h1 h2
    rw [config_2711_testBit p hp r _ b (by omega), if_neg hne, if_pos rfl, if_pos]
    omega
  · rw [config_2711_testBit p hp r _ _ (by omega), if_pos rfl, if_pos (by omega)]
  · rw [config_2711_testBit p hp r _ _ (by omega), if_pos rfl, if_neg (by omega),
      if_pos (by omega)]
  · intro k b hb h1 h2
    rw [config_2711_testBit p hp r k b hb]
    split_ifs with h3 h4 h5 h6 h7
    · exact absurd ⟨h3, by omega, by omega⟩ h2
    · exact absurd ⟨h3, by omega, by omega⟩ h2
    · rfl
    · exact absurd ⟨h6, by omega, by omega⟩ h1
    · rfl
    · rfl
  · intro k h1 h2
    rw [config_2711_apply p hp r k, if_neg h2, if_neg h1]

/-- C10 at pin 17 and a block whose words are all ones: word 1 bits 21..23
are cleared, word 58 bits 2 and 3 hold 01. -/
theorem setGpioAsInput_setGpioPullUp_2711_witness :
    (17 : Nat) ≤ 57
    ∧ (setGpioPullUp true ((17 : Nat) : Int)
        (setGpioAsInput ((17 : Nat) : Int) (fun _ => 0xFFFFFFFF))
          ((57 : Int) + (((17 : Nat) >>> 4 : Nat) : Int))).testBit (2 * ((17 : Nat) &&& 0xF)) = true :=
  ⟨by decide,
    (setGpioAsInput_setGpioPullUp_2711 17 (by decide) (fun _ => 0xFFFFFFFF)).2.1⟩

/-! ## Claim C1 -/

/-- The value `mk_gpio_read_packet` writes into the slot of array entry `g`. -/
theorem mk_gpio_read_packet_step_eq (pad : mk_pad) (i : Nat) (d : List Nat) (r : Regs) :
    mk_gpio_read_packet_step pad i (d, r)
      = (d.set i (if pad.gpio_maps.getD i 0 ≠ -1
                    ∧ (r 13 &&& shl32 1 (pad.gpio_maps.getD i 0)) % 2 ^ 32 = 0
                  then 1 else 0), r) := by
  unfold mk_gpio_read_packet_step GPIO_READ
  dsimp only
  generalize pad.gpio_maps.getD i 0 = g
  by_cases h1 : g = -1
  · rw [if_neg (fun h => h h1), if_neg (fun h => h.1 h1)]
  · rw [if_pos h1]
    by_cases h2 : (r 13 &&& shl32 1 g) % 2 ^ 32 = 0
    · rw [if_pos h2, if_pos ⟨h1, h2⟩]
    · rw [if_neg h2, if_neg (fun h => h2 h.2)]

/-- The first `n` rounds of the loop of `mk_gpio_read_packet` fill the first
`n` entries of the buffer and leave the rest and the block alone. -/
theorem mk_gpio_read_packet_rounds (pad : mk_pad) (r : Regs) (n : Nat) (d : List Nat)
    (hn : n ≤ d.length) :
    (List.range n).foldl (fun s i => mk_gpio_read_packet_step pad i s) (d, r)
      = ((List.range n).map
            (fun i => if pad.gpio_maps.getD i 0 ≠ -1
                ∧ (r 13 &&& shl32 1 (pad.gpio_maps.getD i 0)) % 2 ^ 32 = 0
              then 1 else 0) ++ d.drop n, r) := by
  induction n with
  | zero => simp
  | succ k ih =>
    have hk : k < d.length := by omega
    rw [List.range_succ, List.foldl_append, ih (by omega), List.foldl_cons, List.foldl_nil,
      mk_gpio_read_packet_step_eq, List.set_append]
    simp only [List.length_map, List.length_range, Nat.lt_irrefl, if_false, Nat.sub_self]
    rw [List.drop_eq_getElem_cons hk, List.set_cons_zero]
    simp

/-- Masking the level word with the bit of a pin in 0..31 gives zero
exactly when that bit of the word is 0. -/
theorem level_mask_eq_zero_iff (L : Nat) (g : Int) (h0 : 0 ≤ g) (h1 : g ≤ 31) :
    (L &&& shl32 1 g) % 2 ^ 32 = 0 ↔ L.testBit g.toNat = false := by
  have hs : shl32 1 g = 2 ^ g.toNat := by
    unfold shl32
    rw [if_pos ⟨h0, by omega⟩, Nat.one_shiftLeft]
    apply Nat.mod_eq_of_lt
    apply Nat.pow_lt_pow_right (by decide)
    omega
  have hlt : L &&& 2 ^ g.toNat < 2 ^ 32 := by
    apply lt_of_le_of_lt Nat.and_le_right
    apply Nat.pow_lt_pow_right (by decide)
    omega
  rw [hs, Nat.mod_eq_of_lt hlt, Nat.and_two_pow]
  cases hb : L.testBit g.toNat
  · simp
  · simp

/-- The buffer `mk_gpio_read_packet` returns, entry by entry, for a pad
whose 13 slots hold the sentinel or a pin in 0..31. -/
theorem mk_gpio_read_packet_data (pad : mk_pad) (data : List Nat) (r : Regs)
    (hlen : pad.gpio_maps.length = 13)
    (hpins : ∀ g ∈ pad.gpio_maps, g = -1 ∨ (0 ≤ g ∧ g ≤ 31))
    (hdata : data.length = 13) :
    (mk_gpio_read_packet pad data r).1
      = (List.range 13).map
          (fun i => if pad.gpio_maps.getD i 0 ≠ -1
              ∧ (r 13).testBit (pad.gpio_maps.getD i 0).toNat = false
            then 1 else 0) := by
  unfold mk_gpio_read_packet
  rw [show MK_MAX_BUTTONS = 13 from rfl,
    mk_gpio_read_packet_rounds pad r 13 data (by omega),
    List.drop_of_length_le (by omega), List.append_nil]
  apply List.map_congr_left
  intro i hi
  have hi13 : i < 13 := List.mem_range.mp hi
  have hmem : pad.gpio_maps.getD i 0 ∈ pad.gpio_maps := by
    rw [List.getD_eq_getElem _ _ (by omega)]
    exact List.getElem_mem _
  have hp := hpins _ hmem
  generalize pad.gpio_maps.getD i 0 = g at hp ⊢
  rcases hp with hs | ⟨h0, h1⟩
  · rw [if_neg (fun h => h.1 hs), if_neg (fun h => h.1 hs)]
  · have hiff := level_mask_eq_zero_iff (r 13) g h0 h1
    have hne : g ≠ -1 := by omega
    by_cases hb : (r 13).testBit g.toNat = false
    · rw [if_pos ⟨hne, hiff.mpr hb⟩, if_pos ⟨hne, hb⟩]
    · rw [if_neg (fun h => hb (hiff.mp h.2)), if_neg (fun h => hb h.2)]

/-- C1. For every pad whose 13 slots each hold the sentinel -1 or a pin
number in 0..31, every register block (with `L` its word 13) and every
13-entry buffer, `mk_gpio_read_packet` leaves in slot `i` of the buffer 1
exactly when slot `i` of the pad is not the sentinel and bit `gpio_maps[i]`
of `L` is 0, and 0 otherwise, for every slot `i` of the 13; a sentinel slot
gets 0 whatever the register holds. -/
theorem mk_gpio_read_packet_samples (pad : mk_pad) (data : List Nat) (r : Regs)
    (hlen : pad.gpio_maps.length = 13)
    (hpins : ∀ g ∈ pad.gpio_maps, g = -1 ∨ (0 ≤ g ∧ g ≤ 31))
    (hdata : data.length = 13) :
    (mk_gpio_read_packet pad data r).1
        = (List.range 13).map
            (fun i => if pad.gpio_maps.getD i 0 ≠ -1
                ∧ (r 13).testBit (pad.gpio_maps.getD i 0).toNat = false
              then 1 else 0)
    ∧ (∀ i : Nat, i < 13 →
        ((mk_gpio_read_packet pad data r).1.getD i 0 = 1
          ↔ (pad.gpio_maps.getD i 0 ≠ -1
              ∧ (r 13).testBit (pad.gpio_maps.getD i 0).toNat = false))
        ∧ ((mk_gpio_read_packet pad data r).1.getD i 0 = 0
          ↔ ¬ (pad.gpio_maps.getD i 0 ≠ -1
              ∧ (r 13).testBit (pad.gpio_maps.getD i 0).toNat = false))) := by
  have hmain := mk_gpio_read_packet_data pad data r hlen hpins hdata
  refine ⟨hmain, ?_⟩
  intro i hi
  have hget : (mk_gpio_read_packet pad data r).1.getD i 0
      = if pad.gpio_maps.getD i 0 ≠ -1
          ∧ (r 13).testBit (pad.gpio_maps.getD i 0).toNat = false
        then 1 else 0 := by
    rw [hmain, List.getD_eq_getElem _ _ (by simpa using hi)]
    simp
  rw [hget]
  by_cases hc : pad.gpio_maps.getD i 0 ≠ -1
      ∧ (r 13).testBit (pad.gpio_maps.getD i 0).toNat = false
  · simp [hc]
  · simp [hc]

/-- C1 at the pad with the built-in table of player 1 and the level
register 0xFFFFFBFF (pin 10 low, every other line high): slot 4 (start) is
1, the other twelve slots are 0. -/
theorem mk_gpio_read_packet_samples_witness :
    pad_p1.gpio_maps.length = 13
    ∧ (∀ g ∈ pad_p1.gpio_maps, g = -1 ∨ (0 ≤ g ∧ g ≤ 31))
    ∧ (mk_gpio_read_packet pad_p1 (List.replicate 13 0) (regs_level 0xFFFFFBFF)).1
        = [0, 0, 0, 0, 1, 0, 0, 0, 0, 0, 0, 0, 0] :=
  ⟨rfl, by decide,
   (mk_gpio_read_packet_samples pad_p1 (List.replicate 13 0) (regs_level 0xFFFFFBFF) rfl
      (by decide) rfl).1.trans (by decide)⟩

/-! ## Claim C2 -/

/-- C2. For every sample of 13 entries, `mk_input_report` makes exactly
these calls on the device of the pad, in this order: ABS_Y with
`!data[0] - !data[1]`, ABS_X with `!data[2] - !data[3]`, the nine buttons
START, SELECT, A, B, TR, Y, X, TL, MODE with `data[4]`, ..., `data[12]`,
then one sync. Both axis values lie in {-1, 0, 1}; with entries in {0, 1},
the vertical value is -1 when only up is pressed, +1 when only down is
pressed and 0 when both or neither are, and the same holds for the
horizontal value with left and right. -/
theorem mk_input_report_calls (pad : mk_pad)
    (up down left right start select a b tr y x tl mode : Nat) :
    ∃ vy vx : Int,
      mk_input_report pad [up, down, left, right, start, select, a, b, tr, y, x, tl, mode]
        = [InputCall.input_report_abs pad.dev Axis.ABS_Y vy,
           InputCall.input_report_abs pad.dev Axis.ABS_X vx,
           InputCall.input_report_key pad.dev Btn.BTN_START start,
           InputCall.input_report_key pad.dev Btn.BTN_SELECT select,
           InputCall.input_report_key pad.dev Btn.BTN_A a,
           InputCall.input_report_key pad.dev Btn.BTN_B b,
           InputCall.input_report_key pad.dev Btn.BTN_TR tr,
           InputCall.input_report_key pad.dev Btn.BTN_Y y,
           InputCall.input_report_key pad.dev Btn.BTN_X x,
           InputCall.input_report_key pad.dev Btn.BTN_TL tl,
           InputCall.input_report_key pad.dev Btn.BTN_MODE mode,
           InputCall.input_sync pad.dev]
      ∧ vy = (if up = 0 then 1 else 0) - (if down = 0 then 1 else 0)
      ∧ vx = (if left = 0 then 1 else 0) - (if right = 0 then 1 else 0)
      ∧ (vy = -1 ∨ vy = 0 ∨ vy = 1)
      ∧ (vx = -1 ∨ vx = 0 ∨ vx = 1)
      ∧ (up = 1 ∧ down = 0 → vy = -1)
      ∧ (up = 0 ∧ down = 1 → vy = 1)
      ∧ (up = 1 ∧ down = 1 ∨ up = 0 ∧ down = 0 → vy = 0)
      ∧ (left = 1 ∧ right = 0 → vx = -1)
      ∧ (left = 0 ∧ right = 1 → vx = 1)
      ∧ (left = 1 ∧ right = 1 ∨ left = 0 ∧ right = 0 → vx = 0) := by
  refine ⟨(if up = 0 then 1 else 0) - (if down = 0 then 1 else 0),
    (if left = 0 then 1 else 0) - (if right = 0 then 1 else 0), rfl, rfl, rfl, ?_, ?_, ?_, ?_,
    ?_, ?_, ?_, ?_⟩
  · split_ifs <;> simp
  · split_ifs <;> simp
  · rintro ⟨h1, h2⟩; simp [h1, h2]
  · rintro ⟨h1, h2⟩; simp [h1, h2]
  · rintro (⟨h1, h2⟩ | ⟨h1, h2⟩) <;> simp [h1, h2]
  · rintro ⟨h1, h2⟩; simp [h1, h2]
  · rintro ⟨h1, h2⟩; simp [h1, h2]
  · rintro (⟨h1, h2⟩ | ⟨h1, h2⟩) <;> simp [h1, h2]

/-! ## Claim C3 -/

theorem wrap_int_of_range (x : Int) (h1 : -2147483648 ≤ x) (h2 : x ≤ 2147483647) :
    wrap_int x = x := by
  unfold wrap_int
  omega

theorem wrap_int_succ (x : Int) : wrap_int (wrap_int x + 1) = wrap_int (x + 1) := by
  unfold wrap_int
  omega

theorem run_sched_append (cs ds : List SchedCall) (m : mk) :
    run_sched (cs ++ ds) m
      = ((run_sched ds (run_sched cs m).1).1,
         (run_sched cs m).2 ++ (run_sched ds (run_sched cs m).1).2) := by
  induction cs generalizing m with
  | nil => simp [run_sched]
  | cons c cs ih => cases c <;> simp [run_sched, ih]

/-- One successful open: the timer call it makes and the counter it
leaves. -/
theorem run_sched_one_open (m : mk) :
    (run_sched [SchedCall.open_ok] m).2
        = [(if m.used = 0 then [TimerCall.mod_timer] else [], wrap_int (m.used + 1))]
    ∧ (run_sched [SchedCall.open_ok] m).1.used = wrap_int (m.used + 1) := by
  by_cases h : m.used = 0
  · simp [run_sched, mk_open, h]
  · simp [run_sched, mk_open, h]

/-- The log of `k` opens from `used = 0`, with the 32-bit counter: open
number `i` arms the timer exactly when the counter has come back to 0. -/
theorem run_sched_opens_log (k : Nat) (m : mk) (hu : m.used = 0) :
    (run_sched (List.replicate k SchedCall.open_ok) m).2
        = (List.range k).map
            (fun i : Nat =>
              (if wrap_int (i : Int) = 0 then [TimerCall.mod_timer] else [],
                wrap_int ((i : Int) + 1)))
    ∧ (run_sched (List.replicate k SchedCall.open_ok) m).1.used = wrap_int (k : Int) := by
  induction k with
  | zero => simp [run_sched, hu, wrap_int]
  | succ j ih =>
    obtain ⟨ih1, ih2⟩ := ih
    obtain ⟨h1, h2⟩ := run_sched_one_open (run_sched (List.replicate j SchedCall.open_ok) m).1
    rw [List.replicate_succ', run_sched_append]
    simp only []
    rw [ih1, h1, h2, ih2, wrap_int_succ, List.range_succ, List.map_append]
    constructor
    · rfl
    · push_cast; rfl

/-- After `n + 1` opens from the idle state, `n + 1 ≤ INT_MAX`: the first
one arms the timer, the `i`-th leaves `used = i + 1`. -/
theorem run_sched_opens (n : Nat) (hn : n + 1 ≤ 2147483647) (m : mk) (hu : m.used = 0) :
    run_sched (List.replicate (n + 1) SchedCall.open_ok) m
      = ({ m with used := (n : Int) + 1, timer_pending := true },
         (List.range (n + 1)).map
           (fun i : Nat => (if i = 0 then [TimerCall.mod_timer] else [], (i : Int) + 1))) := by
  induction n with
  | zero => simp [run_sched, mk_open, hu, List.range_succ, wrap_int]
  | succ k ih =>
    rw [List.replicate_succ', run_sched_append, ih (by omega)]
    have hk : ((k : Int) + 1 = 0) = False := by
      apply propext; constructor
      · intro h; omega
      · intro h; exact h.elim
    have hw : wrap_int ((k : Int) + 1 + 1) = (k : Int) + 1 + 1 :=
      wrap_int_of_range _ (by omega) (by omega)
    simp [run_sched, mk_open, hk, hw, List.range_succ]

/-- The first `k` of `n + 1` closes, `k ≤ n`: none disarms the timer. -/
theorem run_sched_closes (n k : Nat) (hn : n + 1 ≤ 2147483647) (hk : k ≤ n) (m : mk)
    (hu : m.used = (n : Int) + 1) :
    run_sched (List.replicate k SchedCall.close) m
      = ({ m with used := (n : Int) + 1 - k },
         (List.range k).map (fun i : Nat => (([] : List TimerCall), (n : Int) - i))) := by
  induction k with
  | zero => simp [run_sched, ← hu]
  | succ j ih =>
    have hw : wrap_int ((n : Int) + 1 - (j : Int) - 1) = (n : Int) + 1 - (j : Int) - 1 :=
      wrap_int_of_range _ (by omega) (by omega)
    have hj : ((n : Int) + 1 - (j : Int) - 1 = 0) = False := by
      apply propext; constructor
      · intro h; omega
      · intro h; exact h.elim
    rw [List.replicate_succ', run_sched_append, ih (by omega)]
    simp [run_sched, mk_close, hw, hj, List.range_succ]
    omega

/-- The `n + 1` closes after `n + 1` opens: only the last one disarms the
timer, and the controller is back in the idle state. -/
theorem run_sched_all_closes (n : Nat) (hn : n + 1 ≤ 2147483647) (m : mk) (hu : m.used = 0)
    (ht : m.timer_pending = false) :
    run_sched (List.replicate (n + 1) SchedCall.close)
        { m with used := (n : Int) + 1, timer_pending := true }
      = (m, (List.range n).map (fun i : Nat => (([] : List TimerCall), (n : Int) - i))
            ++ [([TimerCall.del_timer_sync], 0)]) := by
  rw [List.replicate_succ', run_sched_append, run_sched_closes n n hn (le_refl n) _ rfl]
  cases m
  simp only at hu ht
  subst hu ht
  simp [run_sched, mk_close, wrap_int]

theorem closes_log_eq (n : Nat) :
    (List.range (n + 1)).map
        (fun i : Nat =>
          (if i + 1 = n + 1 then [TimerCall.del_timer_sync] else [],
            ((n + 1 : Nat) : Int) - 1 - i))
      = (List.range n).map (fun i : Nat => (([] : List TimerCall), (n : Int) - i))
          ++ [([TimerCall.del_timer_sync], 0)] := by
  have hmap : (List.range n).map
        (fun i : Nat =>
          (if i + 1 = n + 1 then [TimerCall.del_timer_sync] else [],
            ((n + 1 : Nat) : Int) - 1 - i))
      = (List.range n).map (fun i : Nat => (([] : List TimerCall), (n : Int) - i)) := by
    apply List.map_congr_left
    intro i hi
    have hlt : i < n := List.mem_range.mp hi
    have hne : ¬ (i + 1 = n + 1) := by omega
    simp only [if_neg hne, Prod.mk.injEq, true_and]
    omega
  rw [List.range_succ, List.map_append, hmap]
  simp

theorem flatten_fst_nil (l : List Nat) (g : Nat → List TimerCall) (f : Nat → Int)
    (h : ∀ i ∈ l, g i = []) :
    ((l.map (fun i : Nat => (g i, f i))).map Prod.fst).flatten = [] := by
  induction l with
  | nil => rfl
  | cons x xs ih =>
    have hx : g x = [] := h x (List.mem_cons_self x xs)
    have hxs : ∀ i ∈ xs, g i = [] := fun i hi => h i (List.mem_cons_of_mem x hi)
    simp only [List.map_cons, List.flatten_cons, hx, List.nil_append]
    exact ih hxs

theorem opens_log_calls (n : Nat) :
    (((List.range (n + 1)).map
        (fun i : Nat => (if i = 0 then [TimerCall.mod_timer] else [], (i : Int) + 1))).map
      Prod.fst).flatten = [TimerCall.mod_timer] := by
  rw [List.range_succ_eq_map]
  simp only [List.map_cons, List.flatten_cons, if_pos rfl]
  rw [flatten_fst_nil ((List.range n).map Nat.succ)
    (fun i : Nat => if i = 0 then [TimerCall.mod_timer] else []) (fun i : Nat => (i : Int) + 1)]
  · rfl
  · intro i hi
    obtain ⟨j, _, rfl⟩ := List.mem_map.mp hi
    simp

theorem closes_log_calls (n : Nat) :
    (((List.range n).map (fun i : Nat => (([] : List TimerCall), (n : Int) - i))
        ++ [([TimerCall.del_timer_sync], (0 : Int))]).map Prod.fst).flatten
      = [TimerCall.del_timer_sync] := by
  rw [List.map_append, List.flatten_append,
    flatten_fst_nil (List.range n) (fun _ => []) (fun i : Nat => (n : Int) - i)
      (fun _ _ => rfl)]
  rfl

/-- C3, counterexample at `N = 2^32 + 1 = 4294967297`. From the zeroed
controller, the first open arms the timer (`used` goes from 0 to 1); after
2^32 opens the 32-bit counter `used` has wrapped back to 0, so open number
2^32 (counted from 0), the last of the `N`, finds `used = 0` and calls
`mod_timer` a second time. -/
theorem mk_open_arms_again_after_wrap :
    (run_sched (List.replicate 4294967297 SchedCall.open_ok
        ++ List.replicate 4294967297 SchedCall.close) mk_zero).2[0]?
      = some ([TimerCall.mod_timer], 1)
    ∧ (run_sched (List.replicate 4294967297 SchedCall.open_ok
        ++ List.replicate 4294967297 SchedCall.close) mk_zero).2[4294967296]?
      = some ([TimerCall.mod_timer], 1) := by
  rw [run_sched_append]
  simp only []
  rw [(run_sched_opens_log 4294967297 mk_zero rfl).1]
  constructor
  · rw [List.getElem?_append_left (by rw [List.length_map, List.length_range]; decide),
      List.getElem?_map, List.getElem?_range (by decide)]
    rfl
  · rw [List.getElem?_append_left (by rw [List.length_map, List.length_range]; decide),
      List.getElem?_map, List.getElem?_range (by decide)]
    rfl

/-- C3, amended. For every `N` with `1 ≤ N ≤ 2147483647` (INT_MAX, what the
C `int` counter `used` can hold), from the idle state (`used = 0`, timer
not armed), `N` successful calls of `mk_open` followed by `N` calls of
`mk_close` end in the state they started from (`used = 0`, timer not
armed). The log lists each call: open number `i` (from 0) calls `mod_timer`
exactly when `i = 0` and leaves `used = i + 1`; close number `i` calls
`del_timer_sync` exactly when it is the last one and leaves
`used = N - 1 - i`. So the timer calls of the whole sequence are one
`mod_timer` followed by one `del_timer_sync`, and `used` stays in 0..N. -/
theorem mk_open_close_balanced (N : Nat) (hN : 1 ≤ N) (hmax : N ≤ 2147483647) (m : mk)
    (hu : m.used = 0) (ht : m.timer_pending = false) :
    run_sched (List.replicate N SchedCall.open_ok ++ List.replicate N SchedCall.close) m
      = (m,
         (List.range N).map
           (fun i : Nat => (if i = 0 then [TimerCall.mod_timer] else [], (i : Int) + 1))
         ++ (List.range N).map
           (fun i : Nat =>
             (if i + 1 = N then [TimerCall.del_timer_sync] else [], (N : Int) - 1 - i)))
    ∧ ((run_sched (List.replicate N SchedCall.open_ok ++ List.replicate N SchedCall.close)
          m).2.map Prod.fst).flatten = [TimerCall.mod_timer, TimerCall.del_timer_sync]
    ∧ (∀ e ∈ (run_sched (List.replicate N SchedCall.open_ok
          ++ List.replicate N SchedCall.close) m).2, 0 ≤ e.2 ∧ e.2 ≤ (N : Int)) := by
  obtain ⟨n, rfl⟩ : ∃ n, N = n + 1 := ⟨N - 1, by omega⟩
  have hmain : run_sched (List.replicate (n + 1) SchedCall.open_ok
        ++ List.replicate (n + 1) SchedCall.close) m
      = (m,
         (List.range (n + 1)).map
           (fun i : Nat => (if i = 0 then [TimerCall.mod_timer] else [], (i : Int) + 1))
         ++ (List.range (n + 1)).map
           (fun i : Nat =>
             (if i + 1 = n + 1 then [TimerCall.del_timer_sync] else [],
               ((n + 1 : Nat) : Int) - 1 - i))) := by
    rw [run_sched_append, run_sched_opens n hmax m hu]
    simp only []
    rw [run_sched_all_closes n hmax m hu ht, closes_log_eq]
  refine ⟨hmain, ?_, ?_⟩
  · rw [hmain]
    simp only []
    rw [List.map_append, List.flatten_append, opens_log_calls, closes_log_eq,
      closes_log_calls]
    rfl
  · rw [hmain]
    intro e he
    rw [List.mem_append, List.mem_map, List.mem_map] at he
    rcases he with ⟨i, hi, rfl⟩ | ⟨i, hi, rfl⟩ <;>
      have hlt := List.mem_range.mp hi <;> simp only [] <;> constructor <;> push_cast <;> omega

/-- C3 (amended) at `N = 3`, from a zeroed controller. -/
theorem mk_open_close_balanced_witness :
    1 ≤ 3 ∧ 3 ≤ 2147483647 ∧ mk_zero.used = 0 ∧ mk_zero.timer_pending = false
    ∧ run_sched (List.replicate 3 SchedCall.open_ok ++ List.replicate 3 SchedCall.close)
        mk_zero
      = (mk_zero,
         [([TimerCall.mod_timer], 1), ([], 2), ([], 3),
          ([], 2), ([], 1), ([TimerCall.del_timer_sync], 0)]) :=
  ⟨by decide, by decide, rfl, rfl,
    (mk_open_close_balanced 3 (by decide) (by decide) mk_zero rfl rfl).1⟩

/-! ## Claim C4 -/

/-- C4. For every value of the identifier register, board detection
decides on the part number `(reg >> 4) & 0xFFF`. `get_hwbase` returns the
base address: 0x20000000 for 0xB76 (Rpi0/1), 0x3F000000 for 0xC07 (Rpi2)
and 0xD03 (Rpi3), 0xFE000000 for 0xD08 (Rpi4), and 0, the detection error,
for every other part number; so the base address is non-zero exactly for
the four known codes. `mk_init` reads the pull-register scheme off word 60
of the block it maps (`is_2711` is set when the word differs from
0x6770696f). When the block mapped is that of the board the identifier
names (word 60 reads 0x6770696f on every chip but the Bcm2711, where it is
the pull register GPPUPPDN3), the scheme is the right one for each known
code: Legacy for 0xB76, 0xC07, 0xD03 and Bcm2711 for 0xD08. -/
theorem board_detection_by_part_number (reg : Nat) :
    ((reg >>> 4) &&& 0xFFF = 0xB76 → get_hwbase reg = 0x20000000)
    ∧ ((reg >>> 4) &&& 0xFFF = 0xC07 → get_hwbase reg = 0x3F000000)
    ∧ ((reg >>> 4) &&& 0xFFF = 0xD03 → get_hwbase reg = 0x3F000000)
    ∧ ((reg >>> 4) &&& 0xFFF = 0xD08 → get_hwbase reg = 0xFE000000)
    ∧ ((reg >>> 4) &&& 0xFFF ≠ 0xB76 → (reg >>> 4) &&& 0xFFF ≠ 0xC07 →
        (reg >>> 4) &&& 0xFFF ≠ 0xD03 → (reg >>> 4) &&& 0xFFF ≠ 0xD08 →
        get_hwbase reg = 0)
    ∧ (get_hwbase reg ≠ 0 ↔
        ((reg >>> 4) &&& 0xFFF = 0xB76 ∨ (reg >>> 4) &&& 0xFFF = 0xC07
          ∨ (reg >>> 4) &&& 0xFFF = 0xD03 ∨ (reg >>> 4) &&& 0xFFF = 0xD08))
    ∧ (∀ (env : Env) (mk_cfg : mk_config) (gpio_cfg gpio_cfg2 : gpio_config) (regs : Regs),
        env.midr = reg →
        env.ioremap ((GPIO_BASE_OFFSET + get_hwbase reg) % 2 ^ 32) = some regs →
        (regs 60 = 0x6770696f ↔ (reg >>> 4) &&& 0xFFF ≠ 0xD08) →
        ((reg >>> 4) &&& 0xFFF = 0xB76 →
            (mk_init env mk_cfg gpio_cfg gpio_cfg2).is_2711 = false)
        ∧ ((reg >>> 4) &&& 0xFFF = 0xC07 →
            (mk_init env mk_cfg gpio_cfg gpio_cfg2).is_2711 = false)
        ∧ ((reg >>> 4) &&& 0xFFF = 0xD03 →
            (mk_init env mk_cfg gpio_cfg gpio_cfg2).is_2711 = false)
        ∧ ((reg >>> 4) &&& 0xFFF = 0xD08 →
            (mk_init env mk_cfg gpio_cfg gpio_cfg2).is_2711 = true)) := by
  refine ⟨?_, ?_, ?_, ?_, ?_, ?_, ?_⟩
  · intro h; simp [get_hwbase, h]
  · intro h; simp [get_hwbase, h]
  · intro h; simp [get_hwbase, h]
  · intro h; simp [get_hwbase, h]
  · intro h1 h2 h3 h4; simp [get_hwbase, h1, h2, h3, h4]
  · unfold get_hwbase
    simp only []
    split_ifs <;> simp [*]
  · intro env mk_cfg gpio_cfg gpio_cfg2 regs hm hmap hboard
    have hflag : (mk_init env mk_cfg gpio_cfg gpio_cfg2).is_2711
        = decide (regs 60 ≠ 0x6770696f) := by
      unfold mk_init
      simp only [hm, hmap]
      split_ifs with h1
      · rfl
      · cases hp : (mk_probe env gpio_cfg gpio_cfg2 mk_cfg.args mk_cfg.nargs
            { gpio := regs, is_2711 := decide (regs GPPUPPDN3 ≠ 0x6770696f),
              calls := [Call.ioremap ((GPIO_BASE_OFFSET + get_hwbase reg) % 2 ^ 32) 0xB0] }).1
          <;> rfl
    rw [hflag]
    refine ⟨?_, ?_, ?_, ?_⟩
    · intro h
      have h60 : regs 60 = 0x6770696f := hboard.mpr (by rw [h]; decide)
      simp [h60]
    · intro h
      have h60 : regs 60 = 0x6770696f := hboard.mpr (by rw [h]; decide)
      simp [h60]
    · intro h
      have h60 : regs 60 = 0x6770696f := hboard.mpr (by rw [h]; decide)
      simp [h60]
    · intro h
      have h60 : ¬ regs 60 = 0x6770696f := fun hc => (hboard.mp hc) h
      simp [h60]

/-- C4 at the identifier of an Rpi4 (0x410FD083, part number 0xD08) with a
block whose word 60 reads 0, and at the identifier of an Rpi0/1
(0x410FB767, part number 0xB76) with a block whose word 60 reads
0x6770696f. -/
theorem board_detection_by_part_number_witness :
    (get_hwbase 0x410FD083 = 0xFE000000
      ∧ (mk_init (env_ok 0x410FD083 (fun _ => 0)) mk_cfg_p1
            gpio_cfg_absent gpio_cfg_absent).is_2711 = true)
    ∧ (get_hwbase 0x410FB767 = 0x20000000
      ∧ (mk_init (env_ok 0x410FB767 (fun _ => 0x6770696f)) mk_cfg_p1
            gpio_cfg_absent gpio_cfg_absent).is_2711 = false) :=
  ⟨⟨(board_detection_by_part_number 0x410FD083).2.2.2.1 (by decide),
    ((board_detection_by_part_number 0x410FD083).2.2.2.2.2.2
      (env_ok 0x410FD083 (fun _ => 0)) mk_cfg_p1 gpio_cfg_absent gpio_cfg_absent
      (fun _ => 0) rfl rfl (by decide)).2.2.2 (by decide)⟩,
   ⟨(board_detection_by_part_number 0x410FB767).1 (by decide),
    ((board_detection_by_part_number 0x410FB767).2.2.2.2.2.2
      (env_ok 0x410FB767 (fun _ => 0x6770696f)) mk_cfg_p1 gpio_cfg_absent gpio_cfg_absent
      (fun _ => 0x6770696f) rfl rfl (by decide)).1 (by decide)⟩⟩

/-! ## Claim C5 -/

/-- C5, at the failing input: the identifier register holds 0 (part number
0, none of the four codes), `get_hwbase` returns 0, and `mk_init` goes on:
it maps the window at 0x00200000, configures the thirteen pins of the pad
and registers the device, and returns 0. -/
theorem mk_init_unknown_board_goes_on :
    get_hwbase 0 = 0
    ∧ (mk_init (env_ok 0 (fun _ => 0x6770696f)) mk_cfg_p1 gpio_cfg_absent
          gpio_cfg_absent).ret = 0
    ∧ (mk_init (env_ok 0 (fun _ => 0x6770696f)) mk_cfg_p1 gpio_cfg_absent
          gpio_cfg_absent).calls
        = [Call.ioremap 0x00200000 0xB0, Call.kzalloc, Call.input_allocate_device,
           Call.setGpioAsInput 4, Call.setGpioPullUp 4,
           Call.setGpioAsInput 17, Call.setGpioPullUp 17,
           Call.setGpioAsInput 27, Call.setGpioPullUp 27,
           Call.setGpioAsInput 22, Call.setGpioPullUp 22,
           Call.setGpioAsInput 10, Call.setGpioPullUp 10,
           Call.setGpioAsInput 9, Call.setGpioPullUp 9,
           Call.setGpioAsInput 25, Call.setGpioPullUp 25,
           Call.setGpioAsInput 24, Call.setGpioPullUp 24,
           Call.setGpioAsInput 23, Call.setGpioPullUp 23,
           Call.setGpioAsInput 18, Call.setGpioPullUp 18,
           Call.setGpioAsInput 15, Call.setGpioPullUp 15,
           Call.setGpioAsInput 14, Call.setGpioPullUp 14,
           Call.setGpioAsInput 2, Call.setGpioPullUp 2,
           Call.input_register_device 10] := by
  refine ⟨by decide, by decide, by decide⟩

/-! ## Claim C6 -/

/-- C6. For a pad of type Custom1 (resp. Custom2) whose pin list `gpio`
(resp. `gpio2`) has a count `n` other than 13, `mk_setup_pad` returns
-EINVAL (-22) and hands back the controller and the globals it was given:
the register block is as it was, the trace has no new call (no device
allocated or registered, no pin configured), `total_pads` is as it was. -/
theorem mk_setup_pad_custom_bad_count (env : Env) (gpio_cfg gpio_cfg2 : gpio_config)
    (m : mk) (w : World) (idx : Nat) (pad_type : Int) (n : Nat)
    (hty : pad_type = MK_ARCADE_GPIO_CUSTOM1 ∧ gpio_cfg.nargs = n
      ∨ pad_type = MK_ARCADE_GPIO_CUSTOM2 ∧ gpio_cfg2.nargs = n)
    (hn : n ≠ 13) :
    mk_setup_pad env gpio_cfg gpio_cfg2 m w idx pad_type = (-22, m, w) := by
  rcases hty with ⟨rfl, rfl⟩ | ⟨rfl, rfl⟩
  · by_cases h1 : gpio_cfg.nargs < 1
    · simp [mk_setup_pad, MK_ARCADE_GPIO_CUSTOM1, MK_MAX, EINVAL, h1]
    · simp [mk_setup_pad, MK_ARCADE_GPIO_CUSTOM1, MK_MAX, EINVAL, MK_MAX_BUTTONS, h1, hn]
  · by_cases h1 : gpio_cfg2.nargs < 1
    · simp [mk_setup_pad, MK_ARCADE_GPIO_CUSTOM1, MK_ARCADE_GPIO_CUSTOM2, MK_MAX, EINVAL, h1]
    · simp [mk_setup_pad, MK_ARCADE_GPIO_CUSTOM1, MK_ARCADE_GPIO_CUSTOM2, MK_MAX, EINVAL,
        MK_MAX_BUTTONS, h1, hn]

/-- C6 at the counts 0, 1, 12, 14 and 100 for Custom1, and at 0 and 14 for
Custom2. -/
theorem mk_setup_pad_custom_bad_count_witness :
    ((0 : Nat) ≠ 13
      ∧ mk_setup_pad (env_ok 0x410FD083 (fun _ => 0))
          (gpio_cfg_of mk_arcade_gpio_maps_p2 0) gpio_cfg_absent mk_zero
          (world_start 0 true) 0 MK_ARCADE_GPIO_CUSTOM1
        = (-22, mk_zero, world_start 0 true))
    ∧ ((1 : Nat) ≠ 13
      ∧ mk_setup_pad (env_ok 0x410FD083 (fun _ => 0))
          (gpio_cfg_of mk_arcade_gpio_maps_p2 1) gpio_cfg_absent mk_zero
          (world_start 0 true) 0 MK_ARCADE_GPIO_CUSTOM1
        = (-22, mk_zero, world_start 0 true))
    ∧ ((12 : Nat) ≠ 13
      ∧ mk_setup_pad (env_ok 0x410FD083 (fun _ => 0))
          (gpio_cfg_of mk_arcade_gpio_maps_p2 12) gpio_cfg_absent mk_zero
          (world_start 0 true) 0 MK_ARCADE_GPIO_CUSTOM1
        = (-22, mk_zero, world_start 0 true))
    ∧ ((14 : Nat) ≠ 13
      ∧ mk_setup_pad (env_ok 0x410FD083 (fun _ => 0))
          (gpio_cfg_of mk_arcade_gpio_maps_p2 14) gpio_cfg_absent mk_zero
          (world_start 0 true) 0 MK_ARCADE_GPIO_CUSTOM1
        = (-22, mk_zero, world_start 0 true))
    ∧ ((100 : Nat) ≠ 13
      ∧ mk_setup_pad (env_ok 0x410FD083 (fun _ => 0))
          (gpio_cfg_of mk_arcade_gpio_maps_p2 100) gpio_cfg_absent mk_zero
          (world_start 0 true) 0 MK_ARCADE_GPIO_CUSTOM1
        = (-22, mk_zero, world_start 0 true))
    ∧ mk_setup_pad (env_ok 0x410FD083 (fun _ => 0)) gpio_cfg_absent
          (gpio_cfg_of mk_arcade_gpio_maps_p2 0) mk_zero
          (world_start 0 true) 1 MK_ARCADE_GPIO_CUSTOM2
        = (-22, mk_zero, world_start 0 true)
    ∧ mk_setup_pad (env_ok 0x410FD083 (fun _ => 0)) gpio_cfg_absent
          (gpio_cfg_of mk_arcade_gpio_maps_p2 14) mk_zero
          (world_start 0 true) 1 MK_ARCADE_GPIO_CUSTOM2
        = (-22, mk_zero, world_start 0 true) :=
  ⟨⟨by decide, mk_setup_pad_custom_bad_count _ _ _ _ _ _ _ 0 (Or.inl ⟨rfl, rfl⟩) (by decide)⟩,
   ⟨by decide, mk_setup_pad_custom_bad_count _ _ _ _ _ _ _ 1 (Or.inl ⟨rfl, rfl⟩) (by decide)⟩,
   ⟨by decide, mk_setup_pad_custom_bad_count _ _ _ _ _ _ _ 12 (Or.inl ⟨rfl, rfl⟩) (by decide)⟩,
   ⟨by decide, mk_setup_pad_custom_bad_count _ _ _ _ _ _ _ 14 (Or.inl ⟨rfl, rfl⟩) (by decide)⟩,
   ⟨by decide,
    mk_setup_pad_custom_bad_count _ _ _ _ _ _ _ 100 (Or.inl ⟨rfl, rfl⟩) (by decide)⟩,
   mk_setup_pad_custom_bad_count _ _ _ _ _ _ _ 0 (Or.inr ⟨rfl, rfl⟩) (by decide),
   mk_setup_pad_custom_bad_count _ _ _ _ _ _ _ 14 (Or.inr ⟨rfl, rfl⟩) (by decide)⟩

/-! ## Claim C7 -/

theorem range_foldl_getD {σ : Type} (l : List Int) (f : Int → σ → σ) (s : σ) :
    (List.range l.length).foldl (fun x i => f (l.getD i 0) x) s
      = l.foldl (fun x g => f g x) s := by
  have hmap : (List.range l.length).map (fun i => l.getD i 0) = l := by
    apply List.ext_getElem
    · simp
    · intro i h1 h2
      simp at h1
      simp [List.getD_eq_getElem, h1]
  conv_rhs => rw [← hmap]
  rw [List.foldl_map]

theorem mk_setup_pad_pin_eq (pad : mk_pad) (i : Nat) (w : World) :
    mk_setup_pad_pin pad i w = pin_cfg (pad.gpio_maps.getD i 0) w := rfl

/-- The pin loop over a whole array: the calls made, the block, and the
scheme flag, which it leaves alone. -/
theorem pin_cfg_foldl (l : List Int) (w : World) :
    (l.foldl (fun x g => pin_cfg g x) w).calls
        = w.calls ++ (l.filter (fun g => decide (g ≠ -1))).flatMap
            (fun g => [Call.setGpioAsInput g, Call.setGpioPullUp g])
    ∧ (l.foldl (fun x g => pin_cfg g x) w).gpio
        = (l.filter (fun g => decide (g ≠ -1))).foldl
            (fun r g => setGpioPullUp w.is_2711 g (setGpioAsInput g r)) w.gpio
    ∧ (l.foldl (fun x g => pin_cfg g x) w).is_2711 = w.is_2711 := by
  induction l generalizing w with
  | nil => simp
  | cons g gs ih =>
    by_cases hg : g = -1
    · have e : pin_cfg g w = w := by simp [pin_cfg, hg]
      rw [List.foldl_cons, e, List.filter_cons_of_neg (by simp [hg])]
      exact ih w
    · obtain ⟨h1, h2, h3⟩ := ih (pin_cfg g w)
      have ec : (pin_cfg g w).calls
          = w.calls ++ [Call.setGpioAsInput g, Call.setGpioPullUp g] := by
        simp [pin_cfg, hg]
      have eg : (pin_cfg g w).gpio = setGpioPullUp w.is_2711 g (setGpioAsInput g w.gpio) := by
        simp [pin_cfg, hg]
      have ei : (pin_cfg g w).is_2711 = w.is_2711 := by
        simp [pin_cfg, hg]
      rw [List.foldl_cons, h1, h2, h3, ec, eg, ei]
      simp [List.filter_cons, hg, List.flatMap_cons]

theorem pin_loop_eq (pad : mk_pad) (hl : pad.gpio_maps.length = 13) (w : World) :
    (List.range MK_MAX_BUTTONS).foldl (fun x i => mk_setup_pad_pin pad i x) w
      = pad.gpio_maps.foldl (fun x g => pin_cfg g x) w := by
  have h := range_foldl_getD pad.gpio_maps pin_cfg w
  rw [hl] at h
  exact h

/-- What `mk_setup_pad` returns when the type and the pin count pass the
checks, the device is allocated (`d`) and registered, and the table copied
has 13 entries. -/
theorem mk_setup_pad_ok (env : Env) (gpio_cfg gpio_cfg2 : gpio_config) (m : mk) (w : World)
    (idx : Nat) (pad_type : Int) (d : Nat)
    (h1 : 1 ≤ pad_type) (h2 : pad_type < MK_MAX)
    (h3 : pad_type = MK_ARCADE_GPIO_CUSTOM1 → gpio_cfg.nargs = 13)
    (h4 : pad_type = MK_ARCADE_GPIO_CUSTOM2 → gpio_cfg2.nargs = 13)
    (hl : (mk_setup_pad_maps gpio_cfg gpio_cfg2 pad_type
            (m.pads.getD idx mk_pad_zero).gpio_maps).length = 13)
    (halloc : env.input_allocate_device idx = some d)
    (hreg : env.input_register_device idx = 0) :
    mk_setup_pad env gpio_cfg gpio_cfg2 m w idx pad_type
      = (0,
         { m with
           pads := m.pads.set idx
             { dev := some d, type := pad_type,
               gpio_maps := mk_setup_pad_maps gpio_cfg gpio_cfg2 pad_type
                 (m.pads.getD idx mk_pad_zero).gpio_maps },
           total_pads := m.total_pads + 1 },
         { gpio := ((mk_setup_pad_maps gpio_cfg gpio_cfg2 pad_type
                (m.pads.getD idx mk_pad_zero).gpio_maps).filter
                  (fun g => decide (g ≠ -1))).foldl
                (fun r g => setGpioPullUp w.is_2711 g (setGpioAsInput g r)) w.gpio,
           is_2711 := w.is_2711,
           calls := w.calls ++ [Call.input_allocate_device]
             ++ ((mk_setup_pad_maps gpio_cfg gpio_cfg2 pad_type
                (m.pads.getD idx mk_pad_zero).gpio_maps).filter
                  (fun g => decide (g ≠ -1))).flatMap
                (fun g => [Call.setGpioAsInput g, Call.setGpioPullUp g])
             ++ [Call.input_register_device d] }) := by
  have c1 : ¬ (pad_type < 1 ∨ pad_type ≥ MK_MAX) := by omega
  have c2 : ¬ (pad_type = MK_ARCADE_GPIO_CUSTOM1 ∧ gpio_cfg.nargs < 1) := by
    rintro ⟨ha, hb⟩; have := h3 ha; omega
  have c3 : ¬ (pad_type = MK_ARCADE_GPIO_CUSTOM1 ∧ gpio_cfg.nargs ≠ MK_MAX_BUTTONS) := by
    rintro ⟨ha, hb⟩; exact hb (h3 ha)
  have c4 : ¬ (pad_type = MK_ARCADE_GPIO_CUSTOM2 ∧ gpio_cfg2.nargs < 1) := by
    rintro ⟨ha, hb⟩; have := h4 ha; omega
  have c5 : ¬ (pad_type = MK_ARCADE_GPIO_CUSTOM2 ∧ gpio_cfg2.nargs ≠ MK_MAX_BUTTONS) := by
    rintro ⟨ha, hb⟩; exact hb (h4 ha)
  obtain ⟨e1, e2, e3⟩ := pin_cfg_foldl
    (mk_setup_pad_maps gpio_cfg gpio_cfg2 pad_type (m.pads.getD idx mk_pad_zero).gpio_maps)
    { w with calls := w.calls ++ [Call.input_allocate_device] }
  unfold mk_setup_pad
  simp only [if_neg c1, if_neg c2, if_neg c3, if_neg c4, if_neg c5, halloc, hreg, ne_eq,
    not_true_eq_false, if_false]
  rw [pin_loop_eq _ hl, e1, e2, e3]

/-- C7, counterexample. A custom list of 13 entries whose first entry is
100 (neither the sentinel nor a GPIO pin number) is not rejected:
`mk_setup_pad` returns 0, calls `setGpioAsInput 100` and
`setGpioPullUp 100`, and the register block is written for that entry
(word 10 and, on a Bcm2711 board, word 63 change). -/
theorem mk_setup_pad_accepts_pin_100 :
    pins_with_100.length = 13
    ∧ (mk_setup_pad (env_ok 0x410FD083 (fun _ => 0xFFFFFFFF))
          (gpio_cfg_of pins_with_100 13) gpio_cfg_absent mk_zero
          (world_start 0xFFFFFFFF true) 0 MK_ARCADE_GPIO_CUSTOM1).1 = 0
    ∧ (mk_setup_pad (env_ok 0x410FD083 (fun _ => 0xFFFFFFFF))
          (gpio_cfg_of pins_with_100 13) gpio_cfg_absent mk_zero
          (world_start 0xFFFFFFFF true) 0 MK_ARCADE_GPIO_CUSTOM1).2.2.calls
        = [Call.input_allocate_device, Call.setGpioAsInput 100, Call.setGpioPullUp 100,
           Call.input_register_device 10]
    ∧ (world_start 0xFFFFFFFF true).gpio 10 = 0xFFFFFFFF
    ∧ (mk_setup_pad (env_ok 0x410FD083 (fun _ => 0xFFFFFFFF))
          (gpio_cfg_of pins_with_100 13) gpio_cfg_absent mk_zero
          (world_start 0xFFFFFFFF true) 0 MK_ARCADE_GPIO_CUSTOM1).2.2.gpio 10 = 0xFFFFFFF8
    ∧ (mk_setup_pad (env_ok 0x410FD083 (fun _ => 0xFFFFFFFF))
          (gpio_cfg_of pins_with_100 13) gpio_cfg_absent mk_zero
          (world_start 0xFFFFFFFF true) 0 MK_ARCADE_GPIO_CUSTOM1).2.2.gpio 63 = 0xFFFFFDFF := by
  refine ⟨by decide, by decide, by decide, by decide, by decide, by decide⟩

/-- C7, amended. For every custom pin list of exactly 13 entries,
`mk_setup_pad` checks no pin number: when the device is allocated and
registered it returns 0, and it passes every entry other than the sentinel
-1, whatever its value, to `setGpioAsInput` and then to `setGpioPullUp`, in
slot order; a sentinel entry is passed to neither. The trace gains the
allocation, these calls and the registration, and the register block is
the one these calls leave. -/
theorem mk_setup_pad_custom_configures_every_entry (env : Env)
    (gpio_cfg gpio_cfg2 : gpio_config) (m : mk) (w : World) (idx : Nat) (pad_type : Int)
    (pins : List Int) (d : Nat)
    (hty : pad_type = MK_ARCADE_GPIO_CUSTOM1 ∧ gpio_cfg = gpio_cfg_of pins 13
      ∨ pad_type = MK_ARCADE_GPIO_CUSTOM2 ∧ gpio_cfg2 = gpio_cfg_of pins 13)
    (hlen : pins.length = 13)
    (halloc : env.input_allocate_device idx = some d)
    (hreg : env.input_register_device idx = 0) :
    (mk_setup_pad env gpio_cfg gpio_cfg2 m w idx pad_type).1 = 0
    ∧ (mk_setup_pad env gpio_cfg gpio_cfg2 m w idx pad_type).2.2.calls
        = w.calls ++ [Call.input_allocate_device]
          ++ (pins.filter (fun g => decide (g ≠ -1))).flatMap
              (fun g => [Call.setGpioAsInput g, Call.setGpioPullUp g])
          ++ [Call.input_register_device d]
    ∧ (mk_setup_pad env gpio_cfg gpio_cfg2 m w idx pad_type).2.2.gpio
        = (pins.filter (fun g => decide (g ≠ -1))).foldl
            (fun r g => setGpioPullUp w.is_2711 g (setGpioAsInput g r)) w.gpio := by
  have htake : pins.take MK_MAX_BUTTONS = pins := by
    apply List.take_of_length_le
    rw [hlen]; decide
  rcases hty with ⟨rfl, rfl⟩ | ⟨rfl, rfl⟩
  · have hmaps : mk_setup_pad_maps (gpio_cfg_of pins 13) gpio_cfg2 MK_ARCADE_GPIO_CUSTOM1
        (m.pads.getD idx mk_pad_zero).gpio_maps = pins := by
      simp [mk_setup_pad_maps, MK_ARCADE_GPIO_CUSTOM1, MK_ARCADE_GPIO_P1, MK_ARCADE_GPIO_P2,
        gpio_cfg_of, htake]
    rw [mk_setup_pad_ok env _ _ m w idx MK_ARCADE_GPIO_CUSTOM1 d (by decide) (by decide)
      (fun _ => rfl) (fun h => absurd h (by decide)) (by rw [hmaps]; exact hlen) halloc hreg,
      hmaps]
    exact ⟨rfl, rfl, rfl⟩
  · have hmaps : mk_setup_pad_maps gpio_cfg (gpio_cfg_of pins 13) MK_ARCADE_GPIO_CUSTOM2
        (m.pads.getD idx mk_pad_zero).gpio_maps = pins := by
      simp [mk_setup_pad_maps, MK_ARCADE_GPIO_CUSTOM1, MK_ARCADE_GPIO_CUSTOM2,
        MK_ARCADE_GPIO_P1, MK_ARCADE_GPIO_P2, gpio_cfg_of, htake]
    rw [mk_setup_pad_ok env _ _ m w idx MK_ARCADE_GPIO_CUSTOM2 d (by decide) (by decide)
      (fun h => absurd h (by decide)) (fun _ => rfl) (by rw [hmaps]; exact hlen) halloc hreg,
      hmaps]
    exact ⟨rfl, rfl, rfl⟩

/-- C7 (amended) at the list with pin 5 in slot 0 and pin 6 in slot 2. -/
theorem mk_setup_pad_custom_configures_every_entry_witness :
    pins_5_6.length = 13
    ∧ (mk_setup_pad (env_ok 0x410FD083 (fun _ => 0)) (gpio_cfg_of pins_5_6 13)
          gpio_cfg_absent mk_zero (world_start 0 true) 0 MK_ARCADE_GPIO_CUSTOM1).2.2.calls
        = [Call.input_allocate_device, Call.setGpioAsInput 5, Call.setGpioPullUp 5,
           Call.setGpioAsInput 6, Call.setGpioPullUp 6, Call.input_register_device 10] :=
  ⟨rfl,
   (mk_setup_pad_custom_configures_every_entry (env_ok 0x410FD083 (fun _ => 0))
      (gpio_cfg_of pins_5_6 13) gpio_cfg_absent mk_zero (world_start 0 true) 0
      MK_ARCADE_GPIO_CUSTOM1 pins_5_6 10 (Or.inl ⟨rfl, rfl⟩) rfl rfl rfl).2.1⟩

/-! ## Claim C8 -/

/-- C8, counterexample. One pad of type BuiltinP1 is configured
(`mk_probe` with `map=1`), the level register reads 0xFFFFFBFF (pin 10,
start, low; the other twelve pins of the table high). One tick makes nine
button reports, not one: `mk_input_report` reports every button, pressed
or not. -/
theorem mk_process_packet_nine_button_reports :
    (mk_probe (env_ok 0x410FD083 (fun _ => 0)) gpio_cfg_absent gpio_cfg_absent
        mk_cfg_p1.args mk_cfg_p1.nargs (world_start 0 true)).1 = Except.ok mk_one_p1
    ∧ Nat.testBit 0xFFFFFBFF 10 = false
    ∧ (∀ g ∈ mk_arcade_gpio_maps_p1, g ≠ 10 → Nat.testBit 0xFFFFFBFF g.toNat = true)
    ∧ ((mk_process_packet mk_one_p1 (regs_level 0xFFFFFBFF)).1.filter
          InputCall.isKey).length = 9
    ∧ (mk_process_packet mk_one_p1 (regs_level 0xFFFFFBFF)).1.filter InputCall.isKey
        ≠ [InputCall.input_report_key (some 10) Btn.BTN_START 1] := by
  refine ⟨rfl, by decide, by decide, by decide, by decide⟩

/-- C8, amended. With exactly one pad configured, of type BuiltinP1 and
held in pad slot 0 (the first entry of `map`), and a level register in
which the start pin (10) reads low and the other twelve pins of the table
read high, one tick makes twelve calls, all on the device of that pad:
ABS_Y with value 0, ABS_X with value 0, one button report for each of the
nine buttons in slot order, START with value 1 (pressed) and SELECT, A, B,
TR, Y, X, TL, MODE with value 0, and one sync, which comes last. -/
theorem mk_process_packet_one_p1_start (m : mk) (d : Nat) (r : Regs)
    (h1 : m.total_pads = 1)
    (h2 : m.pads.getD 0 mk_pad_zero
      = { dev := some d, type := MK_ARCADE_GPIO_P1, gpio_maps := mk_arcade_gpio_maps_p1 })
    (hlow : (r 13).testBit 10 = false)
    (hhigh : ∀ g ∈ [4, 17, 27, 22, 9, 25, 24, 23, 18, 15, 14, 2], (r 13).testBit g = true) :
    (mk_process_packet m r).1
      = [InputCall.input_report_abs (some d) Axis.ABS_Y 0,
         InputCall.input_report_abs (some d) Axis.ABS_X 0,
         InputCall.input_report_key (some d) Btn.BTN_START 1,
         InputCall.input_report_key (some d) Btn.BTN_SELECT 0,
         InputCall.input_report_key (some d) Btn.BTN_A 0,
         InputCall.input_report_key (some d) Btn.BTN_B 0,
         InputCall.input_report_key (some d) Btn.BTN_TR 0,
         InputCall.input_report_key (some d) Btn.BTN_Y 0,
         InputCall.input_report_key (some d) Btn.BTN_X 0,
         InputCall.input_report_key (some d) Btn.BTN_TL 0,
         InputCall.input_report_key (some d) Btn.BTN_MODE 0,
         InputCall.input_sync (some d)] := by
  have hstep : (mk_process_packet m r).1
      = mk_input_report (m.pads.getD 0 mk_pad_zero)
          (mk_gpio_read_packet (m.pads.getD 0 mk_pad_zero)
            (List.replicate MK_MAX_BUTTONS 0) r).1 := by
    unfold mk_process_packet
    rw [h1]
    rfl
  have hdata : (mk_gpio_read_packet
        { dev := some d, type := MK_ARCADE_GPIO_P1, gpio_maps := mk_arcade_gpio_maps_p1 }
        (List.replicate MK_MAX_BUTTONS 0) r).1
      = [0, 0, 0, 0, 1, 0, 0, 0, 0, 0, 0, 0, 0] := by
    have hp1 : ∀ g ∈ mk_arcade_gpio_maps_p1, g = -1 ∨ (0 ≤ g ∧ g ≤ 31) := by decide
    rw [mk_gpio_read_packet_data
      { dev := some d, type := MK_ARCADE_GPIO_P1, gpio_maps := mk_arcade_gpio_maps_p1 }
      (List.replicate MK_MAX_BUTTONS 0) r rfl hp1 rfl]
    have b4 := hhigh 4 (by decide)
    have b17 := hhigh 17 (by decide)
    have b27 := hhigh 27 (by decide)
    have b22 := hhigh 22 (by decide)
    have b9 := hhigh 9 (by decide)
    have b25 := hhigh 25 (by decide)
    have b24 := hhigh 24 (by decide)
    have b23 := hhigh 23 (by decide)
    have b18 := hhigh 18 (by decide)
    have b15 := hhigh 15 (by decide)
    have b14 := hhigh 14 (by decide)
    have b2 := hhigh 2 (by decide)
    simp [List.range_succ, mk_arcade_gpio_maps_p1, hlow, b4, b17, b27, b22, b9, b25, b24,
      b23, b18, b15, b14, b2]
  rw [hstep, h2, hdata]
  rfl

/-- C8 (amended) at the controller built for `map=1` and the level
register 0xFFFFFBFF. -/
theorem mk_process_packet_one_p1_start_witness :
    mk_one_p1.total_pads = 1
    ∧ (regs_level 0xFFFFFBFF 13).testBit 10 = false
    ∧ (∀ g ∈ [4, 17, 27, 22, 9, 25, 24, 23, 18, 15, 14, 2],
        (regs_level 0xFFFFFBFF 13).testBit g = true)
    ∧ (mk_process_packet mk_one_p1 (regs_level 0xFFFFFBFF)).1
      = [InputCall.input_report_abs (some 10) Axis.ABS_Y 0,
         InputCall.input_report_abs (some 10) Axis.ABS_X 0,
         InputCall.input_report_key (some 10) Btn.BTN_START 1,
         InputCall.input_report_key (some 10) Btn.BTN_SELECT 0,
         InputCall.input_report_key (some 10) Btn.BTN_A 0,
         InputCall.input_report_key (some 10) Btn.BTN_B 0,
         InputCall.input_report_key (some 10) Btn.BTN_TR 0,
         InputCall.input_report_key (some 10) Btn.BTN_Y 0,
         InputCall.input_report_key (some 10) Btn.BTN_X 0,
         InputCall.input_report_key (some 10) Btn.BTN_TL 0,
         InputCall.input_report_key (some 10) Btn.BTN_MODE 0,
         InputCall.input_sync (some 10)] :=
  ⟨rfl, by decide, by decide,
   mk_process_packet_one_p1_start mk_one_p1 10 (regs_level 0xFFFFFBFF) rfl rfl
     (by decide) (by decide)⟩

/-! ## Claim C9 -/

/-- C9, at the failing input `map=0,1` (first entry "none", second entry
BuiltinP1): `mk_probe` succeeds, the one device it registers is the device
of pad slot 1, and `total_pads` is 1. One tick visits slot 0 only: its
twelve calls are all made on the null device pointer of the zeroed slot 0,
and none on the registered device. -/
theorem mk_process_packet_misses_registered_pad :
    (mk_probe (env_ok 0x410FD083 (fun _ => 0)) gpio_cfg_absent gpio_cfg_absent
        [MK_NONE, MK_ARCADE_GPIO_P1] 2 (world_start 0 true)).1 = Except.ok mk_none_p1
    ∧ registered_devices
        (mk_probe (env_ok 0x410FD083 (fun _ => 0)) gpio_cfg_absent gpio_cfg_absent
          [MK_NONE, MK_ARCADE_GPIO_P1] 2 (world_start 0 true)).2.calls = [11]
    ∧ (mk_none_p1.pads.map mk_pad.dev) = [none, some 11]
    ∧ mk_none_p1.total_pads = 1
    ∧ (mk_process_packet mk_none_p1 (regs_level 0xFFFFFFFF)).1.map InputCall.device
        = List.replicate 12 none := by
  refine ⟨rfl, by decide, by decide, by decide, by decide⟩

end MkArcade
